import Mathlib

/-!
Shallow embedding of the tool registry / dispatch / upstream-request layer of
the mcp-server repository.

Sources embedded:
- `src/app/mcp/actual.py` : the `TOOLS` table and the unified `execute`
  endpoint (tool dispatch, required-field validation for `add_transaction`,
  the generic `HTTPException(500, ...)` wrapping of upstream failures).
- `src/app/http.py` : `bridge_get` / `bridge_post` (`raise_for_status`
  semantics, modelled by `bridgeCall`).
- `src/mcp_server/client/actual_bridge.py` : the request-body builders of
  `ActualBridgeClient` (`add_transaction`, `edit_transaction`,
  `query_transactions`) and the set of methods the class defines.
- `src/mcp_server/server.py` : the stdio tool functions, in particular the
  attribute names they invoke on `ActualBridgeClient`, and the stdio tool
  catalogue.

Python dicts are modelled as association lists in insertion order; Python
truthiness of a string is `s != ""`, of a list is non-emptiness, of `None` is
false.  HTTP traffic is modelled by an explicit `Bridge` oracle mapping each
request to a status and a JSON body, and every dispatch function returns the
list of upstream requests it issued so that "zero upstream calls" is a
statement about the code, not about a mock.
-/

namespace MCP

/-- JSON-like values exchanged with the bridge. -/
inductive JValue where
  | null
  | str (s : String)
  | num (q : Rat)
  | bool (b : Bool)
  | strList (xs : List String)
  deriving DecidableEq, Repr

/-- An argument mapping / JSON object: association list in insertion order,
modelling a Python dict. -/
abbrev Args := List (String × JValue)

/-- Python `k in d` on a dict. -/
def hasKey (args : Args) (k : String) : Bool :=
  args.any (fun p => p.1 == k)

/-- Python `d.get(k)` on a dict: first binding of the key, if any. -/
def lookupJ (args : Args) (k : String) : Option JValue :=
  (args.find? (fun p => p.1 == k)).map Prod.snd

/-- Default bridge base URL from `src/app/config.py`. -/
def ACTUAL_BRIDGE_URL : String := "http://actual-bridge:3000"

/-- The read half of the `TOOLS` table of `src/app/mcp/actual.py` (name,
endpoint); every read tool uses method GET. -/
def readTools : List (String × String) :=
  [("accounts", ACTUAL_BRIDGE_URL ++ "/mcp/accounts"),
   ("categories", ACTUAL_BRIDGE_URL ++ "/mcp/categories"),
   ("transactions", ACTUAL_BRIDGE_URL ++ "/transactions/recent"),
   ("monthly_summary", ACTUAL_BRIDGE_URL ++ "/mcp/summary/month")]

/-- The write half of the `TOOLS` table; every write tool uses method POST. -/
def writeTools : List (String × String) :=
  [("add_transaction", ACTUAL_BRIDGE_URL ++ "/mcp/transactions/add")]

/-- Python `tool in TOOLS[...]` plus endpoint lookup on one half of the
table. -/
def assocFind (l : List (String × String)) (k : String) : Option String :=
  (l.find? (fun p => p.1 == k)).map Prod.snd

/-- An upstream HTTP request as built by the dispatcher: method, URL, query
parameters (GET) and JSON body (POST/PUT). -/
structure UpstreamRequest where
  method : String
  url : String
  params : Args
  body : Args
  deriving DecidableEq, Repr

/-- The upstream bridge, as an oracle: each request gets a status code and a
JSON body. -/
abbrev Bridge := UpstreamRequest → Nat × JValue

/-- The Python exceptions relevant to dispatch: FastAPI `HTTPException`
(status, detail), `httpx.HTTPStatusError` raised by `raise_for_status`
(status, response body), and `AttributeError`. -/
inductive PyError where
  | httpException (status : Nat) (detail : String)
  | httpStatusError (status : Nat) (body : JValue)
  | attributeError (attr : String)
  deriving DecidableEq, Repr

/-- Rendering `str(e)` of an exception, as interpolated into the dispatcher's
`Error calling {tool}: {e}` detail message. -/
def pyStr : PyError → String
  | .httpException st d => toString st ++ ": " ++ d
  | .httpStatusError st _ => "HTTP error " ++ toString st
  | .attributeError a => "object has no attribute " ++ a

/-- Outcome of a Python call: a JSON value or a raised exception. -/
inductive PyResult where
  | ok (v : JValue)
  | error (e : PyError)
  deriving DecidableEq, Repr

/-- Success statuses for `raise_for_status`. -/
def is2xx (status : Nat) : Bool := 200 ≤ status && status < 300

/-- `bridge_get` / `bridge_post` of `src/app/http.py` (and equally
`response.raise_for_status(); return response.json()` in
`actual_bridge.py`): a 2xx response is decoded and returned, any other
status raises `httpx.HTTPStatusError` carrying the status and response. -/
def bridgeCall (bridge : Bridge) (req : UpstreamRequest) : PyResult :=
  let r := bridge req
  if is2xx r.1 then PyResult.ok r.2
  else PyResult.error (PyError.httpStatusError r.1 r.2)

/-- The required-field list the dispatcher checks for `add_transaction`
(`src/app/mcp/actual.py`, both the direct route and `execute`): note that it
includes `category`. -/
def addTransactionRequired : List String := ["account", "category", "amount", "date"]

/-- The `for f in required: if f not in arguments: raise ...` loop: the first
required field absent from the arguments, in list order. -/
def firstMissing (required : List String) (args : Args) : Option String :=
  match required with
  | [] => none
  | f :: rest => if hasKey args f then firstMissing rest args else some f

/-- Required fields checked by `execute` for a given write tool: only
`add_transaction` is validated. -/
def requiredFor (tool : String) : List String :=
  if tool == "add_transaction" then addTransactionRequired else []

/-- The read branch of `execute`: issue a GET with the caller's arguments as
query parameters; wrap any raised exception in `HTTPException(500,
f"Error calling {tool}: {e}")`. -/
def executeRead (bridge : Bridge) (tool endpoint : String) (arguments : Args) :
    PyResult × List UpstreamRequest :=
  let req : UpstreamRequest := ⟨"GET", endpoint, arguments, []⟩
  match bridgeCall bridge req with
  | PyResult.ok j => (PyResult.ok j, [req])
  | PyResult.error e =>
      (PyResult.error (PyError.httpException 500
        ("Error calling " ++ tool ++ ": " ++ pyStr e)), [req])

/-- The write branch of `execute`: validate required fields first (outside the
try block, so a validation failure is a 400 and issues no request), then POST
the arguments verbatim as the body, wrapping raised exceptions in a generic
500. -/
def executeWrite (bridge : Bridge) (tool endpoint : String) (arguments : Args) :
    PyResult × List UpstreamRequest :=
  match firstMissing (requiredFor tool) arguments with
  | some f =>
      (PyResult.error (PyError.httpException 400 ("Missing required field: " ++ f)), [])
  | none =>
      let req : UpstreamRequest := ⟨"POST", endpoint, [], arguments⟩
      match bridgeCall bridge req with
      | PyResult.ok j => (PyResult.ok j, [req])
      | PyResult.error e =>
          (PyResult.error (PyError.httpException 500
            ("Error calling " ++ tool ++ ": " ++ pyStr e)), [req])

/-- The unified `execute` endpoint of `src/app/mcp/actual.py` (lines
136-175): dispatch on the `TOOLS` table, read tools first, then write tools,
else `HTTPException(400, f"Unknown tool: {tool}")`.  The second component is
the list of upstream requests actually issued. -/
def execute (bridge : Bridge) (tool : String) (arguments : Args) :
    PyResult × List UpstreamRequest :=
  match assocFind readTools tool with
  | some endpoint => executeRead bridge tool endpoint arguments
  | none =>
      match assocFind writeTools tool with
      | some endpoint => executeWrite bridge tool endpoint arguments
      | none =>
          (PyResult.error (PyError.httpException 400 ("Unknown tool: " ++ tool)), [])

/-- Python truthiness of an optional string (`if s:`): present and
non-empty. -/
def truthyOptStr : Option String → Bool
  | some s => !(s == "")
  | none => false

/-- A body entry added under `if v:` for an optional string argument
(truthiness: `None` and `""` are skipped). -/
def optTruthyStr (key : String) : Option String → Args
  | some s => if s == "" then [] else [(key, JValue.str s)]
  | none => []

/-- A body entry added under `if v is not None:` for an optional string
argument (the empty string IS sent). -/
def optStrEntry (key : String) : Option String → Args
  | some s => [(key, JValue.str s)]
  | none => []

/-- A body entry added under `if v is not None:` for an optional numeric
argument (zero IS sent). -/
def optNumEntry (key : String) : Option Rat → Args
  | some q => [(key, JValue.num q)]
  | none => []

/-- A body entry added under `if v is not None:` for an optional boolean
argument (`False` IS sent). -/
def optBoolEntry (key : String) : Option Bool → Args
  | some b => [(key, JValue.bool b)]
  | none => []

/-- The POST body built by `ActualBridgeClient.add_transaction`
(`src/mcp_server/client/actual_bridge.py`, lines 67-92): the three required
keys, then `notes`, `payee`, `category` each added only when truthy. -/
def addTransactionPayload (account : String) (amount : Rat) (date : String)
    (notes payee category : Option String) : Args :=
  [("account", JValue.str account), ("amount", JValue.num amount),
   ("date", JValue.str date)]
    ++ optTruthyStr "notes" notes
    ++ optTruthyStr "payee" payee
    ++ optTruthyStr "category" category

/-- The PUT body built by `ActualBridgeClient.edit_transaction` (lines
94-134): `amount`, `notes`, `cleared` guarded by `is not None`; `date`,
`category`, `account` guarded by truthiness. -/
def editTransactionPayload (amount : Option Rat) (date category : Option String)
    (notes : Option String) (cleared : Option Bool) (account : Option String) : Args :=
  optNumEntry "amount" amount
    ++ optTruthyStr "date" date
    ++ optTruthyStr "category" category
    ++ optStrEntry "notes" notes
    ++ optBoolEntry "cleared" cleared
    ++ optTruthyStr "account" account

/-- The `accounts` argument of `query_transactions`: absent, a single string,
or a list of strings. -/
inductive AccountsArg where
  | absent
  | one (s : String)
  | many (xs : List String)
  deriving DecidableEq, Repr

/-- Python truthiness of the `accounts` argument (`if accounts:`). -/
def AccountsArg.truthy : AccountsArg → Bool
  | .absent => false
  | .one s => !(s == "")
  | .many xs => !xs.isEmpty

/-- The JSON value the `accounts` argument is passed through as, unchanged. -/
def AccountsArg.toJValue : AccountsArg → JValue
  | .absent => JValue.null
  | .one s => JValue.str s
  | .many xs => JValue.strList xs

/-- The filter entries of the `query_transactions` body that follow the
`accounts` entry, in the source's insertion order: `category`, `start_date`,
`end_date` (truthy strings), `min_amount`, `max_amount` (`is not None`
numbers), `search` (truthy string). -/
def queryFilters (category startDate endDate : Option String)
    (minAmount maxAmount : Option Rat) (search : Option String) : Args :=
  optTruthyStr "category" category
    ++ optTruthyStr "start_date" startDate
    ++ optTruthyStr "end_date" endDate
    ++ optNumEntry "min_amount" minAmount
    ++ optNumEntry "max_amount" maxAmount
    ++ optTruthyStr "search" search

/-- The POST body built by `ActualBridgeClient.query_transactions` (lines
154-205): `{"limit": limit}` first, then `accounts` when truthy (passed
through unchanged), then the remaining filters. -/
def queryTransactionsPayload (accounts : AccountsArg)
    (category startDate endDate : Option String)
    (minAmount maxAmount : Option Rat) (search : Option String)
    (limit : Int) : Args :=
  [("limit", JValue.num (limit : Rat))]
    ++ (if accounts.truthy then [("accounts", accounts.toJValue)] else [])
    ++ queryFilters category startDate endDate minAmount maxAmount search

/-- The method names `ActualBridgeClient` defines (besides `__init__`,
`__aenter__`, `__aexit__`): the class has no `get_monthly_summary` and no
`get_recent_transactions`. -/
def bridgeClientMethods : List String :=
  ["get_accounts", "get_categories", "add_transaction", "edit_transaction",
   "delete_transaction", "query_transactions"]

/-- Python attribute lookup plus call on an `ActualBridgeClient` instance:
`runMethod` gives the behaviour of each method the class actually defines;
accessing an attribute the class does not define raises `AttributeError`
before any HTTP request is issued. -/
def invokeClientAttr
    (runMethod : String → List JValue → PyResult × List UpstreamRequest)
    (attr : String) (callArgs : List JValue) : PyResult × List UpstreamRequest :=
  if bridgeClientMethods.contains attr then runMethod attr callArgs
  else (PyResult.error (PyError.attributeError attr), [])

/-- The stdio tool `get_monthly_summary` of `src/mcp_server/server.py` (lines
62-75): it calls `client.get_monthly_summary(month)`. -/
def stdioGetMonthlySummary
    (runMethod : String → List JValue → PyResult × List UpstreamRequest)
    (month : String) : PyResult × List UpstreamRequest :=
  invokeClientAttr runMethod "get_monthly_summary" [JValue.str month]

/-- The stdio tool `get_recent_transactions` of `src/mcp_server/server.py`
(lines 130-144): it calls `client.get_recent_transactions(since_date)`. -/
def stdioGetRecentTransactions
    (runMethod : String → List JValue → PyResult × List UpstreamRequest)
    (sinceDate : Option String) : PyResult × List UpstreamRequest :=
  invokeClientAttr runMethod "get_recent_transactions"
    [match sinceDate with | some s => JValue.str s | none => JValue.null]

/-- The tools the stdio server registers (`src/mcp_server/server.py`,
`main`). -/
def stdioToolNames : List String :=
  ["list_accounts", "list_categories", "get_monthly_summary", "add_transaction",
   "get_recent_transactions", "edit_transaction", "delete_transaction",
   "query_transactions"]

/-- A bridge that answers every request with 200 and a null body. -/
def bridgeOK : Bridge := fun _ => (200, JValue.null)

/-- A bridge that answers every request with HTTP 503. -/
def bridge503 : Bridge := fun _ => (503, JValue.str "Service Unavailable")

/-- The GET request `execute` builds for `invoke("accounts", {})`. -/
def accountsRequest : UpstreamRequest :=
  ⟨"GET", ACTUAL_BRIDGE_URL ++ "/mcp/accounts", [], []⟩

/-- The GET request `execute` builds for `invoke("monthly_summary", args)`. -/
def monthSummaryRequest (args : Args) : UpstreamRequest :=
  ⟨"GET", ACTUAL_BRIDGE_URL ++ "/mcp/summary/month", args, []⟩

/-- An `add_transaction` argument mapping supplying exactly `account`,
`amount` and `date`. -/
def threeFieldArgs : Args :=
  [("account", JValue.str "Checking"), ("amount", JValue.num (-17/2)),
   ("date", JValue.str "2025-01-19")]

/-- An `add_transaction` argument mapping supplying only `account`. -/
def accountOnlyArgs : Args := [("account", JValue.str "Checking")]

/-- The property claimed of `query_transactions`: for a fixed set of the
other filter arguments, the payload built from a single string `s` and the
payload built from the one-element list `[s]` both carry an `accounts` field
of the corresponding shape, and agree on everything outside that field. -/
def C8_shapeOnly (s : String) (category startDate endDate : Option String)
    (minAmount maxAmount : Option Rat) (search : Option String) (limit : Int) : Prop :=
  lookupJ (queryTransactionsPayload (AccountsArg.one s) category startDate endDate
      minAmount maxAmount search limit) "accounts" = some (JValue.str s) ∧
  lookupJ (queryTransactionsPayload (AccountsArg.many [s]) category startDate endDate
      minAmount maxAmount search limit) "accounts" = some (JValue.strList [s]) ∧
  List.filter (fun kv => kv.1 != "accounts")
      (queryTransactionsPayload (AccountsArg.one s) category startDate endDate
        minAmount maxAmount search limit) =
    List.filter (fun kv => kv.1 != "accounts")
      (queryTransactionsPayload (AccountsArg.many [s]) category startDate endDate
        minAmount maxAmount search limit)

instance (s : String) (category startDate endDate : Option String)
    (minAmount maxAmount : Option Rat) (search : Option String) (limit : Int) :
    Decidable (C8_shapeOnly s category startDate endDate minAmount maxAmount search limit) := by
  unfold C8_shapeOnly
  exact inferInstance

/-! ## Helper lemmas -/

/-- Dispatch helper: when the required-field scan for `add_transaction` finds
a missing field, `execute` answers 400 naming it and issues no request. -/
lemma execute_add_missing (bridge : Bridge) (args : Args) (f : String)
    (h : firstMissing addTransactionRequired args = some f) :
    execute bridge "add_transaction" args =
      (PyResult.error (PyError.httpException 400 ("Missing required field: " ++ f)), []) := by
  have e1 : execute bridge "add_transaction" args =
      executeWrite bridge "add_transaction" (ACTUAL_BRIDGE_URL ++ "/mcp/transactions/add") args :=
    rfl
  rw [e1]
  unfold executeWrite
  have e2 : requiredFor "add_transaction" = addTransactionRequired := rfl
  rw [e2, h]

lemma hasKey_append (l1 l2 : Args) (k : String) :
    hasKey (l1 ++ l2) k = (hasKey l1 k || hasKey l2 k) := by
  simp [hasKey, List.any_append]

lemma hasKey_optNumEntry (k k' : String) (o : Option Rat) :
    hasKey (optNumEntry k' o) k = (o.isSome && (k' == k)) := by
  cases o <;> simp [optNumEntry, hasKey]

lemma hasKey_optStrEntry (k k' : String) (o : Option String) :
    hasKey (optStrEntry k' o) k = (o.isSome && (k' == k)) := by
  cases o <;> simp [optStrEntry, hasKey]

lemma hasKey_optBoolEntry (k k' : String) (o : Option Bool) :
    hasKey (optBoolEntry k' o) k = (o.isSome && (k' == k)) := by
  cases o <;> simp [optBoolEntry, hasKey]

lemma hasKey_optTruthyStr (k k' : String) (o : Option String) :
    hasKey (optTruthyStr k' o) k = (truthyOptStr o && (k' == k)) := by
  cases o with
  | none => simp [optTruthyStr, truthyOptStr, hasKey]
  | some s =>
      by_cases h : s == "" <;> simp [optTruthyStr, truthyOptStr, hasKey, h]

/-! ## Claims -/

/-- Claim C1, counterexample: supplying exactly `account`, `amount` and
`date` to `invoke("add_transaction", ...)` IS rejected with a
missing-argument error naming `category` (and issues no upstream request),
so `category` is not optional at the dispatch layer and the required set is
not `{account, amount, date}`. -/
theorem C1_counterexample :
    hasKey threeFieldArgs "account" = true ∧
    hasKey threeFieldArgs "amount" = true ∧
    hasKey threeFieldArgs "date" = true ∧
    hasKey threeFieldArgs "category" = false ∧
    (execute bridgeOK "add_transaction" threeFieldArgs).1 =
      PyResult.error (PyError.httpException 400 "Missing required field: category") ∧
    (execute bridgeOK "add_transaction" threeFieldArgs).2 = [] := by
  decide

/-- Claim C1, amended: the dispatcher's required list for `add_transaction`
also contains `category`; every invocation that supplies `account` but omits
`category` is rejected with a 400 missing-argument error naming `category`,
with zero upstream calls. -/
theorem C1_category_required (bridge : Bridge) (args : Args)
    (hacc : hasKey args "account" = true) (hcat : hasKey args "category" = false) :
    execute bridge "add_transaction" args =
      (PyResult.error (PyError.httpException 400 "Missing required field: category"), []) := by
  have h : firstMissing addTransactionRequired args = some "category" := by
    simp [firstMissing, addTransactionRequired, hacc, hcat]
  exact execute_add_missing bridge args "category" h

/-- Witness for `C1_category_required` at a concrete argument mapping. -/
theorem C1_category_required_witness :
    hasKey threeFieldArgs "account" = true ∧
    hasKey threeFieldArgs "category" = false ∧
    execute bridgeOK "add_transaction" threeFieldArgs =
      (PyResult.error (PyError.httpException 400 "Missing required field: category"), []) :=
  ⟨by decide, by decide,
   C1_category_required bridgeOK threeFieldArgs (by decide) (by decide)⟩

/-- Claim C2, counterexample: `invoke("monthly_summary", {})` against a
bridge does NOT fail pre-flight — the dispatcher neither raises any 400
missing-argument error nor keeps the upstream-call log empty (it issues the
GET and returns the bridge's answer). -/
theorem C2_counterexample :
    ¬ ((∃ d, (execute bridgeOK "monthly_summary" []).1 =
          PyResult.error (PyError.httpException 400 d)) ∧
       (execute bridgeOK "monthly_summary" []).2 = []) := by
  intro h
  obtain ⟨⟨d, h1⟩, h2⟩ := h
  have e1 : (execute bridgeOK "monthly_summary" []).1 = PyResult.ok JValue.null := rfl
  rw [e1] at h1
  simp at h1

/-- Claim C2, amended: the dispatcher performs no argument validation for
read tools — `invoke("monthly_summary", args)` always issues exactly one
upstream GET to the month-summary endpoint carrying the supplied arguments
(even when `month` is absent), and returns the bridge's 2xx body or a
generic 500 wrapper, never a pre-flight missing-argument failure. -/
theorem C2_no_preflight (bridge : Bridge) (args : Args) :
    execute bridge "monthly_summary" args =
      (if is2xx (bridge (monthSummaryRequest args)).1 then
          PyResult.ok (bridge (monthSummaryRequest args)).2
        else
          PyResult.error (PyError.httpException 500
            ("Error calling monthly_summary: " ++
              pyStr (PyError.httpStatusError (bridge (monthSummaryRequest args)).1
                (bridge (monthSummaryRequest args)).2))),
       [monthSummaryRequest args]) := by
  have e1 : execute bridge "monthly_summary" args =
      executeRead bridge "monthly_summary" (ACTUAL_BRIDGE_URL ++ "/mcp/summary/month") args :=
    rfl
  rw [e1]
  unfold executeRead bridgeCall
  simp only [monthSummaryRequest]
  split_ifs with h <;> simp

/-- Claim C3: `ActualBridgeClient` defines neither `get_monthly_summary` nor
`get_recent_transactions`, so the stdio tools of those names fail with an
attribute error before any HTTP request is issued, whatever the argument
mapping and whatever the existing client methods would do. -/
theorem C3_stdio_methods_missing
    (runMethod : String → List JValue → PyResult × List UpstreamRequest)
    (month : String) (sinceDate : Option String) :
    bridgeClientMethods.contains "get_monthly_summary" = false ∧
    bridgeClientMethods.contains "get_recent_transactions" = false ∧
    stdioGetMonthlySummary runMethod month =
      (PyResult.error (PyError.attributeError "get_monthly_summary"), []) ∧
    stdioGetRecentTransactions runMethod sinceDate =
      (PyResult.error (PyError.attributeError "get_recent_transactions"), []) :=
  ⟨rfl, rfl, rfl, rfl⟩

/-- Claim C4: for every tool name absent from both halves of the registry,
`invoke` fails with the 400 unknown-tool client error and issues zero
upstream requests. -/
theorem C4_unknown_tool (bridge : Bridge) (tool : String) (args : Args)
    (hr : assocFind readTools tool = none) (hw : assocFind writeTools tool = none) :
    execute bridge tool args =
      (PyResult.error (PyError.httpException 400 ("Unknown tool: " ++ tool)), []) := by
  unfold execute
  rw [hr, hw]

/-- Witness for `C4_unknown_tool` at a concrete unregistered tool name. -/
theorem C4_unknown_tool_witness :
    assocFind readTools "frobnicate" = none ∧
    assocFind writeTools "frobnicate" = none ∧
    execute bridgeOK "frobnicate" [] =
      (PyResult.error (PyError.httpException 400 ("Unknown tool: " ++ "frobnicate")), []) :=
  ⟨rfl, rfl, C4_unknown_tool bridgeOK "frobnicate" [] rfl rfl⟩

/-- Claim C5: the body `ActualBridgeClient.add_transaction` builds from the
three required fields with no optional fields contains exactly the keys
`account`, `amount`, `date` — no null or empty optional keys appear. -/
theorem C5_add_body_exact (account : String) (amount : Rat) (date : String) :
    addTransactionPayload account amount date none none none =
      [("account", JValue.str account), ("amount", JValue.num amount),
       ("date", JValue.str date)] ∧
    (addTransactionPayload account amount date none none none).map Prod.fst =
      ["account", "amount", "date"] :=
  ⟨rfl, rfl⟩

/-- Claim C6, counterexample: for the invocation supplying only `account`,
the first missing field of the claimed schema `account, amount, date` is
`amount`, yet `invoke` fails naming `category` (the code's required list also
contains `category`, checked second). -/
theorem C6_counterexample :
    firstMissing ["account", "amount", "date"] accountOnlyArgs = some "amount" ∧
    (execute bridgeOK "add_transaction" accountOnlyArgs).1 =
      PyResult.error (PyError.httpException 400 "Missing required field: category") ∧
    (execute bridgeOK "add_transaction" accountOnlyArgs).2 = [] := by
  decide

/-- Claim C6, amended: the dispatcher checks the required list `account,
category, amount, date` in that order; whenever some required field is
missing it fails with a 400 error naming the first missing field in that
order, and performs zero upstream calls. -/
theorem C6_first_missing_code_order (bridge : Bridge) (args : Args) (f : String)
    (h : firstMissing addTransactionRequired args = some f) :
    execute bridge "add_transaction" args =
      (PyResult.error (PyError.httpException 400 ("Missing required field: " ++ f)), []) :=
  execute_add_missing bridge args f h

/-- Witness for `C6_first_missing_code_order` at the empty argument
mapping. -/
theorem C6_first_missing_code_order_witness :
    firstMissing addTransactionRequired [] = some "account" ∧
    execute bridgeOK "add_transaction" [] =
      (PyResult.error (PyError.httpException 400 ("Missing required field: " ++ "account")), []) :=
  ⟨rfl, C6_first_missing_code_order bridgeOK [] "account" rfl⟩

/-- Claim C7, counterexample: when the bridge answers `GET /mcp/accounts`
with HTTP 503, the result of `invoke("accounts", {})` is NOT a typed
upstream-HTTP error carrying status 503 — the dispatcher has re-wrapped it
(into a generic 500), so no such typed failure reaches the caller. -/
theorem C7_counterexample :
    ¬ (∃ body, (execute bridge503 "accounts" []).1 =
        PyResult.error (PyError.httpStatusError 503 body)) := by
  intro h
  obtain ⟨b, hb⟩ := h
  have e1 : (execute bridge503 "accounts" []).1 =
      PyResult.error (PyError.httpException 500 "Error calling accounts: HTTP error 503") := rfl
  rw [e1] at hb
  simp at hb

/-- Claim C7, amended: a non-2xx bridge answer to `GET /mcp/accounts` raises
the typed `HTTPStatusError` (carrying the original status and body) at the
upstream-client layer and is never silently swallowed, but the dispatcher
catches it and surfaces a generic `HTTPException(500, "Error calling
accounts: ...")` whose detail merely embeds the stringified cause — not a
typed upstream error carrying the original status. -/
theorem C7_generic_500_wrapper (bridge : Bridge) (status : Nat) (body : JValue)
    (hst : is2xx status = false) (hbr : bridge accountsRequest = (status, body)) :
    bridgeCall bridge accountsRequest =
      PyResult.error (PyError.httpStatusError status body) ∧
    execute bridge "accounts" [] =
      (PyResult.error (PyError.httpException 500
        ("Error calling accounts: " ++ pyStr (PyError.httpStatusError status body))),
       [accountsRequest]) := by
  have h1 : bridgeCall bridge accountsRequest =
      PyResult.error (PyError.httpStatusError status body) := by
    simp [bridgeCall, hbr, hst]
  refine ⟨h1, ?_⟩
  have e1 : execute bridge "accounts" [] =
      executeRead bridge "accounts" (ACTUAL_BRIDGE_URL ++ "/mcp/accounts") [] := rfl
  rw [e1]
  unfold executeRead
  simp only [show (⟨"GET", ACTUAL_BRIDGE_URL ++ "/mcp/accounts", [], []⟩ : UpstreamRequest) =
    accountsRequest from rfl]
  rw [h1]
  simp

/-- Witness for `C7_generic_500_wrapper` at a bridge answering 503. -/
theorem C7_generic_500_wrapper_witness :
    is2xx 503 = false ∧
    bridge503 accountsRequest = (503, JValue.str "Service Unavailable") ∧
    execute bridge503 "accounts" [] =
      (PyResult.error (PyError.httpException 500
        ("Error calling accounts: " ++
          pyStr (PyError.httpStatusError 503 (JValue.str "Service Unavailable")))),
       [accountsRequest]) :=
  ⟨rfl, rfl,
   (C7_generic_500_wrapper bridge503 503 (JValue.str "Service Unavailable") rfl rfl).2⟩

/-- Claim C8, counterexample: at the empty string, `query_transactions` with
`accounts=""` omits the `accounts` key entirely (falsy), while
`accounts=[""]` (a non-empty list) includes it — the two payloads do not
differ merely in the shape of an `accounts` field present in both. -/
theorem C8_counterexample :
    ¬ C8_shapeOnly "" none none none none none none 100 := by
  decide

/-- Claim C8, amended: for every NON-EMPTY string `s` and every fixed set of
other filter arguments, the payloads built from `accounts=s` and
`accounts=[s]` carry `accounts` as the string `s` and as the one-element
list `[s]` respectively, and agree on all other keys and values; for the
empty string the string form drops the key while the list form keeps it. -/
theorem C8_nonempty_shape (s : String) (hs : s ≠ "")
    (category startDate endDate : Option String)
    (minAmount maxAmount : Option Rat) (search : Option String) (limit : Int) :
    C8_shapeOnly s category startDate endDate minAmount maxAmount search limit := by
  have ht : AccountsArg.truthy (AccountsArg.one s) = true := by
    simp [AccountsArg.truthy, hs]
  have ht2 : AccountsArg.truthy (AccountsArg.many [s]) = true := by
    simp [AccountsArg.truthy]
  unfold C8_shapeOnly queryTransactionsPayload
  rw [ht, ht2]
  refine ⟨?_, ?_, ?_⟩
  · simp [lookupJ, AccountsArg.toJValue, List.find?]
  · simp [lookupJ, AccountsArg.toJValue, List.find?]
  · simp [List.filter_append, AccountsArg.toJValue]

/-- Witness for `C8_nonempty_shape` at a concrete non-empty account name. -/
theorem C8_nonempty_shape_witness :
    "Checking" ≠ "" ∧ C8_shapeOnly "Checking" none none none none none none 100 :=
  ⟨by decide, C8_nonempty_shape "Checking" (by decide) none none none none none none 100⟩

/-- Claim C9, counterexample: `find_transactions` is in neither half of the
dispatcher's registry nor among the stdio server's tools, and
`invoke("find_transactions", {account: "Checking"})` fails with the
unknown-tool 400 error and zero upstream calls instead of resolving to a
tool. -/
theorem C9_counterexample :
    assocFind readTools "find_transactions" = none ∧
    assocFind writeTools "find_transactions" = none ∧
    stdioToolNames.contains "find_transactions" = false ∧
    (execute bridgeOK "find_transactions" accountOnlyArgs).1 =
      PyResult.error (PyError.httpException 400 "Unknown tool: find_transactions") ∧
    (execute bridgeOK "find_transactions" accountOnlyArgs).2 = [] := by
  decide

/-- Claim C9, amended: the catalogue contains no tool named
`find_transactions` (neither the dispatcher's registry nor the stdio tool
set); `invoke` on that name always fails with the 400 unknown-tool error and
performs zero upstream calls. -/
theorem C9_no_find_transactions (bridge : Bridge) (args : Args) :
    execute bridge "find_transactions" args =
      (PyResult.error (PyError.httpException 400 "Unknown tool: find_transactions"), []) ∧
    stdioToolNames.contains "find_transactions" = false :=
  ⟨rfl, rfl⟩

/-- Claim C10: the `edit_transaction` PUT body contains `amount`, `notes`,
`cleared` exactly when the corresponding value is not `None` (so 0, the
empty string and `False` are sent), but contains `date`, `category`,
`account` exactly when the value is truthy (so an empty string supplied for
those is silently omitted). -/
theorem C10_edit_body_keys (amount : Option Rat) (date category notes : Option String)
    (cleared : Option Bool) (account : Option String) :
    hasKey (editTransactionPayload amount date category notes cleared account) "amount"
        = amount.isSome ∧
    hasKey (editTransactionPayload amount date category notes cleared account) "notes"
        = notes.isSome ∧
    hasKey (editTransactionPayload amount date category notes cleared account) "cleared"
        = cleared.isSome ∧
    hasKey (editTransactionPayload amount date category notes cleared account) "date"
        = truthyOptStr date ∧
    hasKey (editTransactionPayload amount date category notes cleared account) "category"
        = truthyOptStr category ∧
    hasKey (editTransactionPayload amount date category notes cleared account) "account"
        = truthyOptStr account := by
  simp [editTransactionPayload, hasKey_append, hasKey_optNumEntry, hasKey_optStrEntry,
    hasKey_optBoolEntry, hasKey_optTruthyStr]

end MCP
